import Mathlib

/-!
Shallow embedding of `src/chain/src/pipe.rs` (the grin block acceptance
pipeline) and proofs about its staged validation behaviour.

External collaborators (store, proof-of-work verifier, retarget function,
commitment/signature verifier, clock, hash function) are modelled as fields
of an `Env` / `Store` record of pure functions; every call the pipeline makes
to a collaborator is recorded in an event trace so that claims about which
collaborators are or are not invoked can be stated precisely.
-/

namespace Grin

/-- Hashes, modelled abstractly as natural numbers. -/
abbrev Hash := Nat

/-- Errors raised by the external store collaborator (`types::Error`),
modelled abstractly. -/
abbrev StoreError := Nat

/-- Errors raised by the secp commitment/signature verifier (`secp::Error`),
modelled abstractly. -/
abbrev SecpError := Nat

/-- Block header fields used by the pipeline (`core::core::BlockHeader`):
height, previous-header hash, timestamp (seconds), declared difficulty,
declared cumulative total difficulty, and the cuckoo proof-size parameter. -/
structure BlockHeader where
  height : Nat
  previous : Hash
  timestamp : Int
  total_difficulty : Nat
  difficulty : Nat
  cuckoo_len : Nat
deriving DecidableEq

/-- A block: a header plus an abstract body payload (the body is only ever
consumed by the external hash / pow / secp collaborators). -/
structure Block where
  header : BlockHeader
  body : Nat
deriving DecidableEq

/-- A chain tip (`types::Tip`): hash of the last block, hash of the block
before it, cumulative height and cumulative total difficulty. -/
structure Tip where
  height : Nat
  last_block_h : Hash
  prev_block_h : Hash
  total_difficulty : Nat
deriving DecidableEq

/-- Validation options, a u32 bitflags value (`pub flags Options: u32`). -/
abbrev Options := Nat

/-- The flag `const NONE = 0b00000001`. -/
def NONE : Options := 1

/-- The flag `const EASY_POW = 0b00000010`: runs with the easier version of
the proof of work, mostly to make testing easier. -/
def EASY_POW : Options := 2

/-- The bitflags intersection test `opts.intersects(flags)`. -/
def Options.intersects (o flags : Options) : Bool := o &&& flags != 0

/-- External collaborators of the pipeline, as pure functions:
hashing, difficulty-from-hash, the retarget function `consensus::next_target`,
the two proof-of-work verifiers, the secp block verifier (`none` = valid,
`some e` = invalid with cause `e`), the current time `time::now()` and the
consensus constant `BLOCK_TIME_SEC`.

`block_time_sec` is modelled from the spec: `consensus::BLOCK_TIME_SEC`
(the nominal block interval) is not under `src/`. -/
structure Env where
  block_hash : Block → Hash
  header_hash : BlockHeader → Hash
  from_hash : Hash → Nat
  next_target : Int → Int → Nat → Nat → Nat × Nat
  pow_verify : Block → Bool
  pow_verify_size : Block → Nat → Bool
  secp_verify : Block → Option SecpError
  now : Int
  block_time_sec : Nat

/-- The chain-state accessor (`ChainStore`), modelled as the behaviour of its
four consumed operations; each returns `Except` to model fallibility. -/
structure Store where
  head : Except StoreError Tip
  get_block_header : Hash → Except StoreError BlockHeader
  save_block : Block → Except StoreError Unit
  save_head : Tip → Except StoreError Unit

/-- One collaborator call made by the pipeline, recorded in order. -/
inductive Event where
  | headRead
  | getHeader (h : Hash)
  | powVerify (b : Block)
  | powVerifySize (b : Block) (n : Nat)
  | secpVerify (b : Block)
  | saveBlock (b : Block)
  | saveHead (t : Tip)
  | blockAccepted (b : Block)
deriving DecidableEq

/-- The pipeline errors (`pipe::Error`). -/
inductive Error where
  | Unfit (s : String)
  | DifficultyTooLow
  | WrongTotalDifficulty
  | WrongCuckooSize
  | InvalidPow
  | InvalidBlockProof (e : SecpError)
  | InvalidBlockTime
  | StoreErr (e : StoreError)
deriving DecidableEq

/-- The per-invocation pipeline context (`BlockContext`): options, the head
observed at entry, and the provisional tip. The two collaborator handles are
threaded separately as `Env` / `Store`. -/
structure BlockContext where
  opts : Options
  head : Tip
  tip : Option Tip
deriving DecidableEq

/-- Modelled from the spec: `Tip::append` lives in `types.rs`, which is not
under `src/`. Per the spec, a new tip is derived by appending a block hash:
height is the predecessor tip height + 1, the last-block hash becomes the
appended hash, the previous-block hash becomes the predecessor tip last-block
hash, and total difficulty is the predecessor total difficulty plus the
difficulty implied by the predecessor tip hash (its last-block hash). -/
def Tip.append (env : Env) (t : Tip) (bh : Hash) : Tip :=
  { height := t.height + 1
    last_block_h := bh
    prev_block_h := t.last_block_h
    total_difficulty := t.total_difficulty + env.from_hash t.last_block_h }

/-- Quick in-memory check to fast-reject any block already handled recently
(`check_known`). -/
def check_known (bh : Hash) (ctx : BlockContext) : Except Error Unit :=
  if bh = ctx.head.last_block_h ∨ bh = ctx.head.prev_block_h then
    Except.error (Error.Unfit "already known")
  else
    Except.ok ()

/-- First level of block validation acting only on the block header
(`validate_header`), with its sub-checks in source order; returns the stage
result together with the collaborator calls made. -/
def validate_header (env : Env) (store : Store) (b : Block) (ctx : BlockContext) :
    Except Error Unit × List Event :=
  if b.header.height > ctx.head.height + 1 then
    (Except.error (Error.Unfit "orphan"), [])
  else
    match store.get_block_header b.header.previous with
    | Except.error e => (Except.error (Error.StoreErr e), [Event.getHeader b.header.previous])
    | Except.ok prev =>
      if b.header.timestamp ≤ prev.timestamp then
        (Except.error Error.InvalidBlockTime, [Event.getHeader b.header.previous])
      else if b.header.timestamp > env.now + 12 * (env.block_time_sec : Int) then
        (Except.error Error.InvalidBlockTime, [Event.getHeader b.header.previous])
      else if b.header.total_difficulty ≠
          prev.total_difficulty + env.from_hash (env.header_hash prev) then
        (Except.error Error.WrongTotalDifficulty, [Event.getHeader b.header.previous])
      else
        let dc := env.next_target b.header.timestamp prev.timestamp prev.difficulty
          prev.cuckoo_len
        if b.header.difficulty < dc.1 then
          (Except.error Error.DifficultyTooLow, [Event.getHeader b.header.previous])
        else if b.header.cuckoo_len ≠ dc.2 ∧ Options.intersects ctx.opts EASY_POW = false then
          (Except.error Error.WrongCuckooSize, [Event.getHeader b.header.previous])
        else if Options.intersects ctx.opts EASY_POW = true then
          if env.pow_verify_size b 16 = false then
            (Except.error Error.InvalidPow,
              [Event.getHeader b.header.previous, Event.powVerifySize b 16])
          else
            (Except.ok (), [Event.getHeader b.header.previous, Event.powVerifySize b 16])
        else
          if env.pow_verify b = false then
            (Except.error Error.InvalidPow,
              [Event.getHeader b.header.previous, Event.powVerify b])
          else
            (Except.ok (), [Event.getHeader b.header.previous, Event.powVerify b])

/-- Tip selection (`set_tip`): the candidate must extend the head directly;
on success the context provisional tip is set to a copy of the head. -/
def set_tip (h : BlockHeader) (ctx : BlockContext) : Except Error BlockContext :=
  if h.previous ≠ ctx.head.last_block_h then
    Except.error (Error.Unfit "Just don\x27t know where to put it right now")
  else
    Except.ok { ctx with tip := some ctx.head }

/-- Block-body validation (`validate_block`): delegates to the secp
verifier. -/
def validate_block (env : Env) (b : Block) : Except Error Unit × List Event :=
  match env.secp_verify b with
  | some e => (Except.error (Error.InvalidBlockProof e), [Event.secpVerify b])
  | none => (Except.ok (), [Event.secpVerify b])

/-- Append stage (`add_block`): advances the provisional tip by appending the
candidate hash, saves the block and notifies the adapter. NOTE: mirroring the
source, the result of `save_block` is computed, mapped to `StoreErr` and then
DISCARDED (there is no `try!` around it at src/chain/src/pipe.rs:191), so this
stage always succeeds. -/
def add_block (env : Env) (store : Store) (b : Block) (ctx : BlockContext) :
    BlockContext × List Event :=
  let ctx2 := { ctx with tip := ctx.tip.map (fun t => Tip.append env t (env.block_hash b)) }
  let _discarded : Except Error Unit := (store.save_block b).mapError Error.StoreErr
  (ctx2, [Event.saveBlock b, Event.blockAccepted b])

/-- Head update (`update_tips`): persists the provisional tip as the new head.
The source calls `ctx.tip.as_ref().unwrap()`; the `none` case models the
panic of that `unwrap` and is returned as `none` here. -/
def update_tips (store : Store) (ctx : BlockContext) :
    Option (Except Error Unit × List Event) :=
  match ctx.tip with
  | none => none
  | some tip =>
    match store.save_head tip with
    | Except.error e => some (Except.error (Error.StoreErr e), [Event.saveHead tip])
    | Except.ok _ => some (Except.ok (), [Event.saveHead tip])

/-- Result of one `process_block` invocation: success with the context tip,
a pipeline error, or a panic (the `unwrap` in `update_tips`). -/
inductive ProcResult where
  | ok (tip : Option Tip)
  | err (e : Error)
  | panicked
deriving DecidableEq

/-- The orchestrator (`process_block`): reads the head, builds the context and
runs the six stages in source order, accumulating the collaborator-call
trace. -/
def process_block (env : Env) (store : Store) (b : Block) (opts : Options) :
    ProcResult × List Event :=
  match store.head with
  | Except.error e => (ProcResult.err (Error.StoreErr e), [Event.headRead])
  | Except.ok head =>
    let ctx : BlockContext := { opts := opts, head := head, tip := none }
    match check_known (env.block_hash b) ctx with
    | Except.error e => (ProcResult.err e, [Event.headRead])
    | Except.ok _ =>
      match validate_header env store b ctx with
      | (Except.error e, evs2) => (ProcResult.err e, Event.headRead :: evs2)
      | (Except.ok _, evs2) =>
        match set_tip b.header ctx with
        | Except.error e => (ProcResult.err e, Event.headRead :: evs2)
        | Except.ok ctx2 =>
          match validate_block env b with
          | (Except.error e, evs3) => (ProcResult.err e, Event.headRead :: (evs2 ++ evs3))
          | (Except.ok _, evs3) =>
            match add_block env store b ctx2 with
            | (ctx3, evs4) =>
              match update_tips store ctx3 with
              | none => (ProcResult.panicked, Event.headRead :: (evs2 ++ evs3 ++ evs4))
              | some (Except.error e, evs5) =>
                (ProcResult.err e, Event.headRead :: (evs2 ++ evs3 ++ evs4 ++ evs5))
              | some (Except.ok _, evs5) =>
                (ProcResult.ok ctx3.tip, Event.headRead :: (evs2 ++ evs3 ++ evs4 ++ evs5))


/-! ### Helper lemmas shared by the claim theorems -/

/-- The collaborator calls made by `validate_header` take one of four shapes:
none (orphan short-circuit), only the parent lookup, or the parent lookup
followed by exactly one proof-of-work verification (easy or full). -/
lemma validate_header_trace_shape (env : Env) (store : Store) (b : Block)
    (ctx : BlockContext) :
    (validate_header env store b ctx).2 = [] ∨
    (validate_header env store b ctx).2 = [Event.getHeader b.header.previous] ∨
    (validate_header env store b ctx).2 =
      [Event.getHeader b.header.previous, Event.powVerifySize b 16] ∨
    (validate_header env store b ctx).2 =
      [Event.getHeader b.header.previous, Event.powVerify b] := by
  unfold validate_header
  dsimp only
  repeat' split
  all_goals simp

/-- Full case analysis of one `process_block` run: the seven possible
outcomes, each with the exact result and collaborator-call trace. -/
lemma process_block_run (env : Env) (store : Store) (b : Block) (opts : Options) :
    (∃ e, store.head = Except.error e ∧
      process_block env store b opts =
        (ProcResult.err (Error.StoreErr e), [Event.headRead])) ∨
    (∃ head, store.head = Except.ok head ∧
      (((env.block_hash b = head.last_block_h ∨ env.block_hash b = head.prev_block_h) ∧
        process_block env store b opts =
          (ProcResult.err (Error.Unfit "already known"), [Event.headRead])) ∨
       (¬ (env.block_hash b = head.last_block_h ∨ env.block_hash b = head.prev_block_h) ∧
        ((∃ e evs, validate_header env store b ⟨opts, head, none⟩ = (Except.error e, evs) ∧
           process_block env store b opts = (ProcResult.err e, Event.headRead :: evs)) ∨
         (∃ evs, validate_header env store b ⟨opts, head, none⟩ = (Except.ok (), evs) ∧
          ((b.header.previous ≠ head.last_block_h ∧
            process_block env store b opts =
              (ProcResult.err (Error.Unfit "Just don\x27t know where to put it right now"),
               Event.headRead :: evs)) ∨
           (b.header.previous = head.last_block_h ∧
            ((∃ ce, env.secp_verify b = some ce ∧
               process_block env store b opts =
                 (ProcResult.err (Error.InvalidBlockProof ce),
                  Event.headRead :: (evs ++ [Event.secpVerify b]))) ∨
             (env.secp_verify b = none ∧
              ((∃ er, store.save_head (Tip.append env head (env.block_hash b)) =
                    Except.error er ∧
                 process_block env store b opts =
                   (ProcResult.err (Error.StoreErr er),
                    Event.headRead :: (evs ++ [Event.secpVerify b] ++
                      [Event.saveBlock b, Event.blockAccepted b] ++
                      [Event.saveHead (Tip.append env head (env.block_hash b))]))) ∨
               (store.save_head (Tip.append env head (env.block_hash b)) = Except.ok () ∧
                 process_block env store b opts =
                   (ProcResult.ok (some (Tip.append env head (env.block_hash b))),
                    Event.headRead :: (evs ++ [Event.secpVerify b] ++
                      [Event.saveBlock b, Event.blockAccepted b] ++
                      [Event.saveHead (Tip.append env head (env.block_hash b))]))))))))))))) := by
  cases hh : store.head with
  | error e =>
    exact Or.inl ⟨e, rfl, by simp [process_block, hh]⟩
  | ok head =>
    refine Or.inr ⟨head, rfl, ?_⟩
    by_cases hk : env.block_hash b = head.last_block_h ∨ env.block_hash b = head.prev_block_h
    · exact Or.inl ⟨hk, by simp [process_block, hh, check_known, hk]⟩
    · refine Or.inr ⟨hk, ?_⟩
      rcases hv : validate_header env store b ⟨opts, head, none⟩ with ⟨r, evs⟩
      cases r with
      | error e =>
        exact Or.inl ⟨e, evs, rfl, by simp [process_block, hh, check_known, hk, hv]⟩
      | ok u =>
        cases u
        refine Or.inr ⟨evs, rfl, ?_⟩
        by_cases hprev : b.header.previous = head.last_block_h
        · refine Or.inr ⟨hprev, ?_⟩
          cases hsv : env.secp_verify b with
          | some ce =>
            exact Or.inl ⟨ce, rfl, by
              simp [process_block, hh, check_known, hk, hv, set_tip, hprev,
                validate_block, hsv]⟩
          | none =>
            refine Or.inr ⟨rfl, ?_⟩
            cases hsh : store.save_head (Tip.append env head (env.block_hash b)) with
            | error er =>
              exact Or.inl ⟨er, rfl, by
                simp [process_block, hh, check_known, hk, hv, set_tip, hprev,
                  validate_block, hsv, add_block, update_tips, hsh]⟩
            | ok u2 =>
              cases u2
              exact Or.inr ⟨rfl, by
                simp [process_block, hh, check_known, hk, hv, set_tip, hprev,
                  validate_block, hsv, add_block, update_tips, hsh]⟩
        · exact Or.inl ⟨hprev, by
            simp [process_block, hh, check_known, hk, hv, set_tip, hprev]⟩

/-! ### Concrete fixtures used by witnesses and counterexamples -/

/-- A concrete collaborator environment: the block hash is the body payload,
every header hashes to its height, every hash implies difficulty 1, the
retarget function returns (1, 12), both proof-of-work verifiers accept,
the secp verifier accepts, the clock reads 1000 and the block interval is
60 seconds. -/
def e0 : Env :=
  { block_hash := fun b => b.body
    header_hash := fun h => h.height
    from_hash := fun _ => 1
    next_target := fun _ _ _ _ => (1, 12)
    pow_verify := fun _ => true
    pow_verify_size := fun _ _ => true
    secp_verify := fun _ => none
    now := 1000
    block_time_sec := 60 }

/-- A concrete head tip at height 5. -/
def H0 : Tip := { height := 5, last_block_h := 7, prev_block_h := 6, total_difficulty := 50 }

/-- The parent header stored under hash 7. -/
def P0 : BlockHeader :=
  { height := 5, previous := 6, timestamp := 10, total_difficulty := 49,
    difficulty := 1, cuckoo_len := 12 }

/-- A candidate block that passes every validation stage against `H0`. -/
def b0 : Block :=
  { header := { height := 6, previous := 7, timestamp := 11, total_difficulty := 50,
                difficulty := 1, cuckoo_len := 12 }
    body := 100 }

/-- A store holding head `H0` and parent `P0`, whose writes all succeed. -/
def s0 : Store :=
  { head := Except.ok H0
    get_block_header := fun h => if h = 7 then Except.ok P0 else Except.error 0
    save_block := fun _ => Except.ok ()
    save_head := fun _ => Except.ok () }

/-- Like `s0` but `save_block` always fails with store error 3. -/
def s1 : Store := { s0 with save_block := fun _ => Except.error 3 }

/-- Like `s0` but `save_head` always fails with store error 5. -/
def s2 : Store := { s0 with save_head := fun _ => Except.error 5 }

/-- A candidate whose hash (body) equals the head last-block hash 7. -/
def b1 : Block := { b0 with body := 7 }

/-- A candidate at height 8, more than one past head `H0` at height 5. -/
def b2 : Block := { b0 with header := { b0.header with height := 8 } }

/-- A header whose previous-hash (9) is not the head last-block hash (7). -/
def hdr2 : BlockHeader := { b0.header with previous := 9 }

/-- The context built by `process_block` from `H0` with options `NONE`. -/
def ctx0 : BlockContext := { opts := NONE, head := H0, tip := none }

/-- The tip obtained by appending `b0` (hash 100) to `H0` under `e0`. -/
def tip1 : Tip :=
  { height := 6, last_block_h := 100, prev_block_h := 7, total_difficulty := 51 }

/-! ### Claim theorems -/

/-- C1: the claim says a `save_block` failure in the append stage must be
returned as `StoreErr`, with no notification and no head update. The code at
src/chain/src/pipe.rs:191 drops the `save_block` result (no `try!`), so on a
concrete run whose `save_block` fails with store error 3 the pipeline still
returns success, still notifies the adapter and still attempts (and here
completes) the head update: the claim is the documented intent and the code
contradicts it. -/
theorem C1_swallowed_save_block_failure :
    s1.save_block b0 = Except.error 3 ∧
    (process_block e0 s1 b0 NONE).1 = ProcResult.ok (some tip1) ∧
    Event.blockAccepted b0 ∈ (process_block e0 s1 b0 NONE).2 ∧
    Event.saveHead tip1 ∈ (process_block e0 s1 b0 NONE).2 :=
  ⟨rfl, rfl, by decide, by decide⟩

/-- C4: a candidate whose hash equals the head last-block hash or the head
previous-block hash is rejected with `Unfit "already known"`, and the
collaborator-call trace is exactly the initial head read: no header lookup,
no proof-of-work verification, no writes, no notification. -/
theorem C4_duplicate_short_circuit (env : Env) (store : Store) (b : Block)
    (opts : Options) (head : Tip)
    (hh : store.head = Except.ok head)
    (hk : env.block_hash b = head.last_block_h ∨ env.block_hash b = head.prev_block_h) :
    process_block env store b opts =
      (ProcResult.err (Error.Unfit "already known"), [Event.headRead]) := by
  simp [process_block, hh, check_known, hk]

/-- Witness for C4 at a concrete duplicate (block `b1` hashes to 7, the head
last-block hash of `H0`). -/
theorem C4_duplicate_short_circuit_witness :
    s0.head = Except.ok H0 ∧
    e0.block_hash b1 = H0.last_block_h ∧
    process_block e0 s0 b1 NONE =
      (ProcResult.err (Error.Unfit "already known"), [Event.headRead]) :=
  ⟨rfl, rfl, C4_duplicate_short_circuit e0 s0 b1 NONE H0 rfl (Or.inl rfl)⟩

/-- C5: a candidate that does not directly extend the head is rejected with
an `Unfit` error: the header stage rejects heights more than one past the
head with `Unfit "orphan"` (before any collaborator call: the trace is
empty), and the tip-selection stage rejects a previous-hash different from
the head last-block hash with `Unfit (...)`; neither path sets a provisional
tip, so no alternative branch is created. -/
theorem C5_not_extending_head_rejected :
    (∀ (env : Env) (store : Store) (b : Block) (ctx : BlockContext),
      b.header.height > ctx.head.height + 1 →
      validate_header env store b ctx = (Except.error (Error.Unfit "orphan"), [])) ∧
    (∀ (h : BlockHeader) (ctx : BlockContext),
      h.previous ≠ ctx.head.last_block_h →
      set_tip h ctx =
        Except.error (Error.Unfit "Just don\x27t know where to put it right now")) := by
  constructor
  · intro env store b ctx hh
    unfold validate_header
    rw [if_pos hh]
  · intro h ctx hprev
    unfold set_tip
    rw [if_pos hprev]

/-- Witness for C5: the orphan candidate `b2` (height 8 against head height
5) and the header `hdr2` (previous-hash 9 against head last-block hash 7). -/
theorem C5_not_extending_head_rejected_witness :
    (b2.header.height > ctx0.head.height + 1 ∧
      validate_header e0 s0 b2 ctx0 = (Except.error (Error.Unfit "orphan"), [])) ∧
    (hdr2.previous ≠ ctx0.head.last_block_h ∧
      set_tip hdr2 ctx0 =
        Except.error (Error.Unfit "Just don\x27t know where to put it right now")) :=
  ⟨⟨by decide, C5_not_extending_head_rejected.1 e0 s0 b2 ctx0 (by decide)⟩,
   ⟨by decide, C5_not_extending_head_rejected.2 hdr2 ctx0 (by decide)⟩⟩

/-- C6: once the orphan check has passed and the parent header was found,
header validation rejects with `InvalidBlockTime` exactly when the candidate
timestamp lies outside the window (parent timestamp, now + 12 nominal block
intervals]: at or before the parent timestamp, or strictly beyond the
future-time bound. -/
theorem C6_time_window (env : Env) (store : Store) (b : Block)
    (ctx : BlockContext) (prev : BlockHeader)
    (hh : ¬ b.header.height > ctx.head.height + 1)
    (hp : store.get_block_header b.header.previous = Except.ok prev) :
    ((validate_header env store b ctx).1 = Except.error Error.InvalidBlockTime ↔
      (b.header.timestamp ≤ prev.timestamp ∨
       b.header.timestamp > env.now + 12 * (env.block_time_sec : Int))) := by
  unfold validate_header
  rw [if_neg hh, hp]
  by_cases ht1 : b.header.timestamp ≤ prev.timestamp
  · simp [ht1]
  · by_cases ht2 : b.header.timestamp > env.now + 12 * (env.block_time_sec : Int)
    · simp [ht1, ht2]
    · simp only [ht1, ht2, or_self, iff_false]
      repeat' split
      all_goals simp_all

/-- Witness for C6 at the concrete candidate `b0` against parent `P0`. -/
theorem C6_time_window_witness :
    (¬ b0.header.height > ctx0.head.height + 1) ∧
    s0.get_block_header b0.header.previous = Except.ok P0 ∧
    ((validate_header e0 s0 b0 ctx0).1 = Except.error Error.InvalidBlockTime ↔
      (b0.header.timestamp ≤ P0.timestamp ∨
       b0.header.timestamp > e0.now + 12 * (e0.block_time_sec : Int))) :=
  ⟨by decide, rfl, C6_time_window e0 s0 b0 ctx0 P0 (by decide) rfl⟩

/-- C7: once the orphan, parent-lookup and time checks have passed, header
validation rejects with `WrongTotalDifficulty` exactly when the declared
total difficulty differs from the parent total difficulty plus the
difficulty implied by the parent header hash; when they are equal this
check passes (any later failure carries a different error). -/
theorem C7_wrong_total_difficulty (env : Env) (store : Store) (b : Block)
    (ctx : BlockContext) (prev : BlockHeader)
    (hh : ¬ b.header.height > ctx.head.height + 1)
    (hp : store.get_block_header b.header.previous = Except.ok prev)
    (ht1 : ¬ b.header.timestamp ≤ prev.timestamp)
    (ht2 : ¬ b.header.timestamp > env.now + 12 * (env.block_time_sec : Int)) :
    ((validate_header env store b ctx).1 = Except.error Error.WrongTotalDifficulty ↔
      b.header.total_difficulty ≠
        prev.total_difficulty + env.from_hash (env.header_hash prev)) := by
  unfold validate_header
  rw [if_neg hh, hp]
  dsimp only
  rw [if_neg ht1, if_neg ht2]
  by_cases htd : b.header.total_difficulty ≠
      prev.total_difficulty + env.from_hash (env.header_hash prev)
  · simp [htd]
  · simp only [htd, iff_false]
    repeat' split
    all_goals simp_all

/-- Witness for C7 at the concrete candidate `b0` against parent `P0`. -/
theorem C7_wrong_total_difficulty_witness :
    (¬ b0.header.height > ctx0.head.height + 1) ∧
    (¬ b0.header.timestamp ≤ P0.timestamp) ∧
    ((validate_header e0 s0 b0 ctx0).1 = Except.error Error.WrongTotalDifficulty ↔
      b0.header.total_difficulty ≠
        P0.total_difficulty + e0.from_hash (e0.header_hash P0)) :=
  ⟨by decide, by decide,
    C7_wrong_total_difficulty e0 s0 b0 ctx0 P0 (by decide) rfl (by decide) (by decide)⟩

/-- C8: with (d, sz) the pair computed by the retarget collaborator from the
candidate and parent timestamps and the parent difficulty and proof-size
parameter, and all earlier sub-checks passed: a declared difficulty below d
rejects with `DifficultyTooLow` whatever the options; a proof-size parameter
different from sz rejects with `WrongCuckooSize` when `EASY_POW` is not set;
and when `EASY_POW` is set the size check is skipped: `WrongCuckooSize` is
never the outcome. -/
theorem C8_difficulty_floor_and_size (env : Env) (store : Store) (b : Block)
    (ctx : BlockContext) (prev : BlockHeader) (d sz : Nat)
    (hh : ¬ b.header.height > ctx.head.height + 1)
    (hp : store.get_block_header b.header.previous = Except.ok prev)
    (ht1 : ¬ b.header.timestamp ≤ prev.timestamp)
    (ht2 : ¬ b.header.timestamp > env.now + 12 * (env.block_time_sec : Int))
    (htd : b.header.total_difficulty =
      prev.total_difficulty + env.from_hash (env.header_hash prev))
    (hnt : env.next_target b.header.timestamp prev.timestamp prev.difficulty
      prev.cuckoo_len = (d, sz)) :
    (b.header.difficulty < d →
      (validate_header env store b ctx).1 = Except.error Error.DifficultyTooLow) ∧
    (Options.intersects ctx.opts EASY_POW = false → ¬ b.header.difficulty < d →
      b.header.cuckoo_len ≠ sz →
      (validate_header env store b ctx).1 = Except.error Error.WrongCuckooSize) ∧
    (Options.intersects ctx.opts EASY_POW = true →
      (validate_header env store b ctx).1 ≠ Except.error Error.WrongCuckooSize) := by
  have htd2 : ¬ b.header.total_difficulty ≠
      prev.total_difficulty + env.from_hash (env.header_hash prev) := by
    simp [htd]
  unfold validate_header
  rw [if_neg hh, hp]
  dsimp only
  rw [if_neg ht1, if_neg ht2, if_neg htd2, hnt]
  dsimp only
  refine ⟨?_, ?_, ?_⟩
  · intro hd
    rw [if_pos hd]
  · intro hez hd hsz
    rw [if_neg hd, if_pos ⟨hsz, hez⟩]
  · intro hez
    by_cases hd : b.header.difficulty < d
    · rw [if_pos hd]
      simp
    · rw [if_neg hd]
      have hno : ¬ (b.header.cuckoo_len ≠ sz ∧
          Options.intersects ctx.opts EASY_POW = false) := by
        simp [hez]
      rw [if_neg hno, if_pos hez]
      split <;> simp

/-- Witness for C8 at the concrete candidate `b0` against parent `P0`, with
the retarget answer (1, 12). -/
theorem C8_difficulty_floor_and_size_witness :
    (e0.next_target b0.header.timestamp P0.timestamp P0.difficulty P0.cuckoo_len
      = (1, 12)) ∧
    ((b0.header.difficulty < 1 →
      (validate_header e0 s0 b0 ctx0).1 = Except.error Error.DifficultyTooLow) ∧
    (Options.intersects ctx0.opts EASY_POW = false → ¬ b0.header.difficulty < 1 →
      b0.header.cuckoo_len ≠ 12 →
      (validate_header e0 s0 b0 ctx0).1 = Except.error Error.WrongCuckooSize) ∧
    (Options.intersects ctx0.opts EASY_POW = true →
      (validate_header e0 s0 b0 ctx0).1 ≠ Except.error Error.WrongCuckooSize)) :=
  ⟨rfl, C8_difficulty_floor_and_size e0 s0 b0 ctx0 P0 1 12 (by decide) rfl
    (by decide) (by decide) (by decide) rfl⟩

/-- C9: proof-of-work verification is mode-dependent and last. First part:
once every earlier sub-check passes, the outcome of header validation is
decided solely by the active-mode verifier — `pow_verify_size` at the fixed
bound 16 when `EASY_POW` is set, the full `pow_verify` otherwise — with
failure mapped to `InvalidPow`. Second part: on any input whatsoever, an
`InvalidPow` outcome means exactly that the active-mode verifier returned
false, so no other sub-check produces it. -/
theorem C9_pow_mode_dependent (env : Env) (store : Store) (b : Block)
    (ctx : BlockContext) (prev : BlockHeader) (d sz : Nat)
    (hh : ¬ b.header.height > ctx.head.height + 1)
    (hp : store.get_block_header b.header.previous = Except.ok prev)
    (ht1 : ¬ b.header.timestamp ≤ prev.timestamp)
    (ht2 : ¬ b.header.timestamp > env.now + 12 * (env.block_time_sec : Int))
    (htd : b.header.total_difficulty =
      prev.total_difficulty + env.from_hash (env.header_hash prev))
    (hnt : env.next_target b.header.timestamp prev.timestamp prev.difficulty
      prev.cuckoo_len = (d, sz))
    (hd : ¬ b.header.difficulty < d)
    (hsz : b.header.cuckoo_len = sz ∨ Options.intersects ctx.opts EASY_POW = true) :
    ((validate_header env store b ctx).1 =
      (if Options.intersects ctx.opts EASY_POW = true then
        (if env.pow_verify_size b 16 = true then Except.ok ()
         else Except.error Error.InvalidPow)
      else
        (if env.pow_verify b = true then Except.ok ()
         else Except.error Error.InvalidPow))) ∧
    (∀ (env2 : Env) (store2 : Store) (b2 : Block) (ctx2 : BlockContext),
      (validate_header env2 store2 b2 ctx2).1 = Except.error Error.InvalidPow →
      (Options.intersects ctx2.opts EASY_POW = true ∧
        env2.pow_verify_size b2 16 = false) ∨
      (Options.intersects ctx2.opts EASY_POW = false ∧
        env2.pow_verify b2 = false)) := by
  constructor
  · have htd2 : ¬ b.header.total_difficulty ≠
        prev.total_difficulty + env.from_hash (env.header_hash prev) := by
      simp [htd]
    have hno : ¬ (b.header.cuckoo_len ≠ sz ∧
        Options.intersects ctx.opts EASY_POW = false) := by
      rcases hsz with h | h <;> simp [h]
    unfold validate_header
    rw [if_neg hh, hp]
    dsimp only
    rw [if_neg ht1, if_neg ht2, if_neg htd2, hnt]
    dsimp only
    rw [if_neg hd, if_neg hno]
    by_cases hez : Options.intersects ctx.opts EASY_POW = true
    · rw [if_pos hez, if_pos hez]
      cases hps : env.pow_verify_size b 16 <;> simp [hps]
    · rw [if_neg hez, if_neg hez]
      cases hpv : env.pow_verify b <;> simp [hpv]
  · intro env2 store2 b2 ctx2 hres
    unfold validate_header at hres
    dsimp only at hres
    repeat' split at hres
    all_goals simp_all

/-- Witness for C9 at the concrete candidate `b0` against parent `P0`. -/
theorem C9_pow_mode_dependent_witness :
    (¬ b0.header.difficulty < 1) ∧
    ((validate_header e0 s0 b0 ctx0).1 =
      (if Options.intersects ctx0.opts EASY_POW = true then
        (if e0.pow_verify_size b0 16 = true then Except.ok ()
         else Except.error Error.InvalidPow)
      else
        (if e0.pow_verify b0 = true then Except.ok ()
         else Except.error Error.InvalidPow))) :=
  ⟨by decide,
    (C9_pow_mode_dependent e0 s0 b0 ctx0 P0 1 12 (by decide) rfl (by decide)
      (by decide) (by decide) rfl (by decide) (Or.inl (by decide))).1⟩

/-- C10: whenever the head-update stage is reached, the context provisional
tip has been set by the tip-selection stage (the only path there), so the
`unwrap` of `ctx.tip` in `update_tips` — modelled by the `panicked` outcome —
never fires: no run of `process_block` panics. -/
theorem C10_update_tips_never_panics (env : Env) (store : Store) (b : Block)
    (opts : Options) : (process_block env store b opts).1 ≠ ProcResult.panicked := by
  rcases process_block_run env store b opts with
    ⟨e, -, hpb⟩ | ⟨head, -, hcase⟩
  · rw [hpb]; simp
  · rcases hcase with ⟨-, hpb⟩ | ⟨-, hcase⟩
    · rw [hpb]; simp
    · rcases hcase with ⟨e, evs, -, hpb⟩ | ⟨evs, -, hcase⟩
      · rw [hpb]; simp
      · rcases hcase with ⟨-, hpb⟩ | ⟨-, hcase⟩
        · rw [hpb]; simp
        · rcases hcase with ⟨ce, -, hpb⟩ | ⟨-, hcase⟩
          · rw [hpb]; simp
          · rcases hcase with ⟨er, -, hpb⟩ | ⟨-, hpb⟩
            · rw [hpb]; simp
            · rw [hpb]; simp

/-- Witness for C10 at the concrete full-acceptance run. -/
theorem C10_update_tips_never_panics_witness :
    (process_block e0 s0 b0 NONE).1 ≠ ProcResult.panicked :=
  C10_update_tips_never_panics e0 s0 b0 NONE

/-- C2: a run of `process_block` that succeeds (all six stages passed against
the head read at entry) returns `ok (some newTip)` — never `ok none` — where
the new tip is the head with the candidate hash appended: its last-block hash
is the candidate hash, its height is the head height + 1, and its total
difficulty is the head total difficulty plus the difficulty implied by the
head last-block hash; moreover `save_block` on the candidate and `save_head`
on the new tip each appear exactly once in the collaborator-call trace. -/
theorem C2_full_acceptance (env : Env) (store : Store) (b : Block)
    (opts : Options) (head : Tip) (r : Option Tip) (tr : List Event)
    (hh : store.head = Except.ok head)
    (hres : process_block env store b opts = (ProcResult.ok r, tr)) :
    r = some (Tip.append env head (env.block_hash b)) ∧
    (Tip.append env head (env.block_hash b)).last_block_h = env.block_hash b ∧
    (Tip.append env head (env.block_hash b)).height = head.height + 1 ∧
    (Tip.append env head (env.block_hash b)).total_difficulty =
      head.total_difficulty + env.from_hash head.last_block_h ∧
    tr.count (Event.saveBlock b) = 1 ∧
    tr.count (Event.saveHead (Tip.append env head (env.block_hash b))) = 1 := by
  rcases process_block_run env store b opts with
    ⟨e, he, hpb⟩ | ⟨head2, hh2, hcase⟩
  · rw [hpb] at hres
    simp at hres
  · rw [hh] at hh2
    obtain rfl : head = head2 := Except.ok.inj hh2
    rcases hcase with ⟨-, hpb⟩ | ⟨-, hcase⟩
    · rw [hpb] at hres
      simp at hres
    · rcases hcase with ⟨e, evs, -, hpb⟩ | ⟨evs, hv, hcase⟩
      · rw [hpb] at hres
        simp at hres
      · rcases hcase with ⟨-, hpb⟩ | ⟨-, hcase⟩
        · rw [hpb] at hres
          simp at hres
        · rcases hcase with ⟨ce, -, hpb⟩ | ⟨-, hcase⟩
          · rw [hpb] at hres
            simp at hres
          · rcases hcase with ⟨er, -, hpb⟩ | ⟨-, hpb⟩
            · rw [hpb] at hres
              simp at hres
            · rw [hpb] at hres
              simp only [Prod.mk.injEq, ProcResult.ok.injEq] at hres
              obtain ⟨hr, htr⟩ := hres
              subst htr
              refine ⟨hr.symm, rfl, rfl, rfl, ?_, ?_⟩
              all_goals
                rcases validate_header_trace_shape env store b ⟨opts, head, none⟩
                  with h | h | h | h <;>
                · rw [hv] at h
                  simp only at h
                  subst h
                  simp [List.count_append, List.count_cons]

/-- The full collaborator-call trace of the successful run of `b0` against
`s0` (non-relaxed mode). -/
def tr0 : List Event :=
  [Event.headRead, Event.getHeader 7, Event.powVerify b0, Event.secpVerify b0,
   Event.saveBlock b0, Event.blockAccepted b0, Event.saveHead tip1]

/-- Witness for C2 at the concrete full-acceptance run of `b0` against `s0`. -/
theorem C2_full_acceptance_witness :
    s0.head = Except.ok H0 ∧
    process_block e0 s0 b0 NONE = (ProcResult.ok (some tip1), tr0) ∧
    (some tip1 = some (Tip.append e0 H0 (e0.block_hash b0)) ∧
     (Tip.append e0 H0 (e0.block_hash b0)).last_block_h = e0.block_hash b0 ∧
     (Tip.append e0 H0 (e0.block_hash b0)).height = H0.height + 1 ∧
     (Tip.append e0 H0 (e0.block_hash b0)).total_difficulty =
       H0.total_difficulty + e0.from_hash H0.last_block_h ∧
     tr0.count (Event.saveBlock b0) = 1 ∧
     tr0.count (Event.saveHead (Tip.append e0 H0 (e0.block_hash b0))) = 1) :=
  ⟨rfl, rfl, C2_full_acceptance e0 s0 b0 NONE H0 (some tip1) tr0 rfl rfl⟩

/-- C3 counterexample: the claim — every error-returning invocation leaves
the candidate unpersisted and the notifier uninvoked — fails on the head
update path. Against store `s2` (whose `save_head` fails with error 5 while
`save_block` succeeds), `process_block` returns `StoreErr 5`, yet the trace
shows the candidate was persisted (`saveBlock`, and `s2.save_block` succeeds)
and the notifier was invoked (`blockAccepted`). -/
theorem C3_counterexample_error_after_side_effects :
    (process_block e0 s2 b0 NONE).1 = ProcResult.err (Error.StoreErr 5) ∧
    Event.saveBlock b0 ∈ (process_block e0 s2 b0 NONE).2 ∧
    Event.blockAccepted b0 ∈ (process_block e0 s2 b0 NONE).2 ∧
    s2.save_block b0 = Except.ok () :=
  ⟨rfl, by decide, by decide, rfl⟩

/-- C3 (amended): on any error return of `process_block`, the persisted head
is unchanged — every `save_head` call made in that invocation failed, and the
returned error is then precisely that store failure. If the notifier was not
invoked (every error raised before the append stage), the candidate block was
never saved and no head write was attempted; if the notifier was invoked, the
error is a `StoreErr` from a failed `save_head` in the head-update stage,
after the block had been persisted. -/
theorem C3_amended_error_frame (env : Env) (store : Store) (b : Block)
    (opts : Options) (e : Error) (tr : List Event)
    (hres : process_block env store b opts = (ProcResult.err e, tr)) :
    (∀ t, Event.saveHead t ∈ tr →
      ∃ er, store.save_head t = Except.error er ∧ e = Error.StoreErr er) ∧
    (Event.blockAccepted b ∈ tr →
      ∃ t er, e = Error.StoreErr er ∧ store.save_head t = Except.error er ∧
        Event.saveHead t ∈ tr) ∧
    (Event.blockAccepted b ∉ tr →
      (∀ b2, Event.saveBlock b2 ∉ tr) ∧ (∀ t, Event.saveHead t ∉ tr)) := by
  rcases process_block_run env store b opts with
    ⟨e2, he, hpb⟩ | ⟨head, hh2, hcase⟩
  · rw [hpb] at hres
    simp only [Prod.mk.injEq] at hres
    obtain ⟨he2, htr⟩ := hres
    subst htr
    simp
  · rcases hcase with ⟨-, hpb⟩ | ⟨-, hcase⟩
    · rw [hpb] at hres
      simp only [Prod.mk.injEq] at hres
      obtain ⟨he2, htr⟩ := hres
      subst htr
      simp
    · rcases hcase with ⟨e2, evs, hv, hpb⟩ | ⟨evs, hv, hcase⟩
      · rw [hpb] at hres
        simp only [Prod.mk.injEq] at hres
        obtain ⟨he2, htr⟩ := hres
        subst htr
        rcases validate_header_trace_shape env store b ⟨opts, head, none⟩
          with h | h | h | h <;>
        · rw [hv] at h
          simp only at h
          subst h
          simp
      · rcases hcase with ⟨-, hpb⟩ | ⟨-, hcase⟩
        · rw [hpb] at hres
          simp only [Prod.mk.injEq] at hres
          obtain ⟨he2, htr⟩ := hres
          subst htr
          rcases validate_header_trace_shape env store b ⟨opts, head, none⟩
            with h | h | h | h <;>
          · rw [hv] at h
            simp only at h
            subst h
            simp
        · rcases hcase with ⟨ce, hce, hpb⟩ | ⟨hce, hcase⟩
          · rw [hpb] at hres
            simp only [Prod.mk.injEq] at hres
            obtain ⟨he2, htr⟩ := hres
            subst htr
            rcases validate_header_trace_shape env store b ⟨opts, head, none⟩
              with h | h | h | h <;>
            · rw [hv] at h
              simp only at h
              subst h
              simp
          · rcases hcase with ⟨er, hsh, hpb⟩ | ⟨hsh, hpb⟩
            · rw [hpb] at hres
              simp only [Prod.mk.injEq, ProcResult.err.injEq] at hres
              obtain ⟨he2, htr⟩ := hres
              subst htr
              subst he2
              refine ⟨?_, ?_, ?_⟩
              · intro t ht
                rcases validate_header_trace_shape env store b ⟨opts, head, none⟩
                  with h | h | h | h <;>
                · rw [hv] at h
                  simp only at h
                  subst h
                  simp at ht
                  subst ht
                  exact ⟨er, hsh, rfl⟩
              · intro _
                refine ⟨Tip.append env head (env.block_hash b), er, rfl, hsh, ?_⟩
                simp
              · intro hnot
                exfalso
                apply hnot
                simp
            · rw [hpb] at hres
              simp at hres

/-- Witness for C3 (amended) at the concrete run against store `s2`, whose
`save_head` fails with store error 5: the run errors with `StoreErr 5` and
the frame conditions of the amended claim hold on its trace `tr0`. -/
theorem C3_amended_error_frame_witness :
    process_block e0 s2 b0 NONE = (ProcResult.err (Error.StoreErr 5), tr0) ∧
    ((∀ t, Event.saveHead t ∈ tr0 →
      ∃ er, s2.save_head t = Except.error er ∧ Error.StoreErr 5 = Error.StoreErr er) ∧
     (Event.blockAccepted b0 ∈ tr0 →
      ∃ t er, Error.StoreErr 5 = Error.StoreErr er ∧
        s2.save_head t = Except.error er ∧ Event.saveHead t ∈ tr0) ∧
     (Event.blockAccepted b0 ∉ tr0 →
      (∀ b2, Event.saveBlock b2 ∉ tr0) ∧ (∀ t, Event.saveHead t ∉ tr0))) :=
  ⟨rfl, C3_amended_error_frame e0 s2 b0 NONE (Error.StoreErr 5) tr0 rfl⟩

end Grin
